import Mathlib

/-!
Verification development for the SeSPHR secure PHR repository.

The definitions below are a shallow embedding of the Python source:

* `policy/parser.py` — conjunctive attribute-policy parsing and evaluation;
* `storage/users.py` — the effective attribute bag with the derived `Role`
  attribute, and admin attribute mutation;
* `audit/logger.py` — the append-only hash-chained audit log;
* `app/services/crypto/ops.py` — the SRS proxy re-encryption step;
* `storage/phr.py` — object record creation on upload;
* `app/api/doctor.py` / `app/api/patient.py` — the access, revoke and
  upload endpoints.

File I/O becomes explicit state passing (the audit log is a list of
records, the metadata and blob stores are finite maps), Python exceptions
become `Option`/`Except`, and the two external cryptographic primitives
(`hashlib.sha256(...).hexdigest()` and pycryptodome's RSA-OAEP/SHA-256)
are taken as parameters, since they are library code outside the
repository; everything the repository itself computes around them is
modelled concretely.
-/

namespace SeSPHR

/-! ### Python string primitives used by the source -/

/-- Models Python `str.capitalize()` on ASCII data: the first character is
upper-cased and every remaining character is lower-cased. -/
def pyCapitalize (s : String) : String :=
  match s.data with
  | [] => ""
  | c :: rest => String.mk (c.toUpper :: rest.map Char.toLower)

/-- Models Python `x or dflt` for an optional string: `None` and the empty
string are falsy and select the default. -/
def pyOr (s : Option String) (dflt : String) : String :=
  match s with
  | some v => if v = "" then dflt else v
  | none => dflt

/-- Scan for the leftmost occurrences of a non-empty separator and split,
as Python `str.split(sep)` does. The fuel argument (strictly more than
the remaining length) makes the recursion structural; every step consumes
at least one character, so the fuel never runs out on the initial call. -/
def splitOnFuel (sep : List Char) : Nat → List Char → List Char → List (List Char)
  | 0, rest, acc => [acc.reverse ++ rest]
  | fuel + 1, l, acc =>
    match l with
    | [] => [acc.reverse]
    | c :: cs =>
      if sep.isPrefixOf (c :: cs) then
        acc.reverse :: splitOnFuel sep fuel (List.drop sep.length (c :: cs)) []
      else splitOnFuel sep fuel cs (c :: acc)

/-- Models Python `str.split(sep)` for a non-empty separator:
non-overlapping leftmost-first occurrences, keeping empty pieces
(`"".split(sep) == [""]`). -/
def pySplit (s sep : String) : List String :=
  (splitOnFuel sep.data (s.data.length + 1) s.data []).map String.mk

/-- Whitespace as Python `str.strip()` removes it (the ASCII subset:
space, tab, newline, carriage return, vertical tab, form feed). -/
def isPySpace (c : Char) : Bool :=
  c = ' ' ∨ c = '\t' ∨ c = '\n' ∨ c = '\r' ∨ c.toNat = 11 ∨ c.toNat = 12

/-- Models Python `str.strip()`: drop leading and trailing whitespace. -/
def pyStrip (s : String) : String :=
  String.mk (((s.data.dropWhile isPySpace).reverse.dropWhile isPySpace).reverse)

/-- Models Python `str.endswith(suffix)`. -/
def pyEndsWith (s suffix : String) : Bool :=
  suffix.data.isSuffixOf s.data

/-- Models Python `str.replace(old, new)` for a non-empty `old`: replace
every non-overlapping leftmost-first occurrence. -/
def pyReplace (s old new : String) : String :=
  String.mk (List.intercalate new.data (splitOnFuel old.data (s.data.length + 1) s.data []))

/-! ### policy/parser.py -/

/-- One step of `parse_policy`: `key, value = part.strip().split(":")`
followed by `(key.strip(), value.strip())`. Splitting into anything other
than exactly two pieces raises `ValueError` in Python, modelled as
`none`. -/
def parseClause (part : String) : Option (String × String) :=
  match pySplit (pyStrip part) ":" with
  | [k, v] => some (pyStrip k, pyStrip v)
  | _ => none

/-- The `for part in parts` loop of `parse_policy`, accumulating rules; a
`ValueError` in any iteration aborts the whole call. -/
def parseClauses : List String → Option (List (String × String))
  | [] => some []
  | part :: parts =>
    match parseClause part, parseClauses parts with
    | some kv, some rules => some (kv :: rules)
    | _, _ => none

/-- Models `parse_policy` (policy/parser.py): split the policy string on
the literal substring "AND" and parse each part as a `key:value` clause.
A `ValueError` escaping the loop is modelled as `none`. -/
def parse_policy (policy_str : String) : Option (List (String × String)) :=
  parseClauses (pySplit policy_str "AND")

/-- Models `str(bag.get(key))` from `evaluate_policy`: `dict.get` yields
`None` for an absent key, and `str(None)` is the string "None". -/
def pyStrGet (bag : String → Option String) (k : String) : String :=
  match bag k with
  | some v => v
  | none => "None"

/-- Models `evaluate_policy` (policy/parser.py). The Python function
receives a user object and reads `user.attributes`; the model receives
that attribute bag directly. The early-return loop over the parsed rules
is the conjunction of all clause checks; a `ValueError` raised by
`parse_policy` propagates, modelled as `none`. -/
def evaluate_policy (bag : String → Option String) (policy_str : String) : Option Bool :=
  match parse_policy policy_str with
  | none => none
  | some rules => some (rules.all (fun kv => pyStrGet bag kv.1 == kv.2))

/-! ### storage/users.py -/

/-- The slice of a `users` table row that the modelled flows consult
(`get_user_by_id` also returns user_id, email, name and password_hash,
which no modelled code path reads). -/
structure UserRec where
  role : String
deriving DecidableEq

/-- A Python dict built by successive assignment from a row list: a later
row for the same key overwrites an earlier one; an absent key reads as
`none`. -/
def dictOf (rows : List (String × String)) : String → Option String :=
  rows.foldl (fun d kv => fun k => if k = kv.1 then some kv.2 else d k) (fun _ => none)

/-- Assignment `d[k] = v` on a modelled dict. -/
def dictSet (d : String → Option String) (k v : String) : String → Option String :=
  fun x => if x = k then some v else d x

/-- Models `get_user_attributes` (storage/users.py): build the dict of the
user's explicit attribute rows, then — when the user exists — overwrite
the `Role` key with the capitalized role from the users table
(`attributes["Role"] = user["role"].capitalize()`; the following
`if "Role" not in attributes` block in the source can never fire). -/
def get_user_attributes (users : String → Option UserRec)
    (attrRows : String → List (String × String)) (user_id : String) :
    String → Option String :=
  let attributes := dictOf (attrRows user_id)
  match users user_id with
  | some user => dictSet attributes "Role" (pyCapitalize user.role)
  | none => attributes

/-- Models `add_attribute` (storage/users.py): `INSERT OR REPLACE` on the
`(user_id, key)` primary key of the attributes table. -/
def add_attribute (attrRows : String → List (String × String))
    (user_id key value : String) : String → List (String × String) :=
  fun uid =>
    if uid = user_id then (attrRows uid).filter (fun kv => kv.1 ≠ key) ++ [(key, value)]
    else attrRows uid

/-! ### audit/logger.py -/

/-- One line of the audit log file. The `hash` field is appended to the
entry after the digest is computed. -/
structure AuditEntry where
  timestamp : Nat
  user : String
  file : String
  action : String
  status : String
  prev_hash : String
  hash : String
deriving DecidableEq

/-- Lower-case hexadecimal digit for a value below 16. -/
def hexChar (n : Nat) : Char :=
  if n < 10 then Char.ofNat (48 + n) else Char.ofNat (87 + n)

/-- Four lower-case hexadecimal digits, as in a JSON \u escape. -/
def toHex4 (n : Nat) : String :=
  String.mk [hexChar (n / 4096 % 16), hexChar (n / 256 % 16), hexChar (n / 16 % 16),
    hexChar (n % 16)]

/-- JSON string escaping as CPython `json.dumps` (default
`ensure_ascii=True`) performs it: quote, backslash and the five short
control escapes; every other character outside 0x20..0x7e becomes a \u
escape, with surrogate pairs beyond the basic multilingual plane. -/
def jsonEscapeChar (c : Char) : String :=
  if c = '"' then "\\\""
  else if c = '\\' then "\\\\"
  else if c = '\n' then "\\n"
  else if c = '\t' then "\\t"
  else if c = '\r' then "\\r"
  else if c.toNat = 8 then "\\b"
  else if c.toNat = 12 then "\\f"
  else if 32 ≤ c.toNat ∧ c.toNat ≤ 126 then String.mk [c]
  else if c.toNat < 65536 then "\\u" ++ toHex4 c.toNat
  else
    "\\u" ++ toHex4 (55296 + (c.toNat - 65536) / 1024) ++
    "\\u" ++ toHex4 (56320 + (c.toNat - 65536) % 1024)

/-- A JSON string literal for `s`. -/
def jsonString (s : String) : String :=
  "\"" ++ String.join (s.data.map jsonEscapeChar) ++ "\""

/-- Models `json.dumps(entry, sort_keys=True)` for the six-key entry dict
built by `log_event` before the `hash` key is added: the keys appear in
sorted order (action, file, prev_hash, status, timestamp, user) with the
default ", " and ": " separators. -/
def serializeEntrySorted (timestamp : Nat) (user file action status prev_hash : String) :
    String :=
  "\x7b\"action\": " ++ jsonString action ++
  ", \"file\": " ++ jsonString file ++
  ", \"prev_hash\": " ++ jsonString prev_hash ++
  ", \"status\": " ++ jsonString status ++
  ", \"timestamp\": " ++ toString timestamp ++
  ", \"user\": " ++ jsonString user ++ "\x7d"

/-- The `hash` of the last line of the audit log file, or "" when the log
is empty, exactly as `log_event` reads it before appending. -/
def lastHash (log : List AuditEntry) : String :=
  match log.getLast? with
  | some e => e.hash
  | none => ""

/-- Models `log_event` (audit/logger.py). The log file is the list of its
lines; `H` models `hashlib.sha256(raw).hexdigest()`, an external-library
primitive, applied to the canonical serialization the source builds. -/
def log_event (H : String → String) (log : List AuditEntry) (timestamp : Nat)
    (user_id file_name action status : String) : List AuditEntry :=
  let prev_hash := lastHash log
  let entry_hash := H (serializeEntrySorted timestamp user_id file_name action status prev_hash)
  log ++ [{ timestamp := timestamp, user := user_id, file := file_name, action := action,
            status := status, prev_hash := prev_hash, hash := entry_hash }]

/-- Models `audit_deny` (audit/logger.py): `user or "anonymous"` and
`file or "unknown"`, action fixed to "ACCESS". -/
def audit_deny (H : String → String) (log : List AuditEntry) (timestamp : Nat)
    (user : Option String) (file : Option String) (reason : String) : List AuditEntry :=
  log_event H log timestamp (pyOr user "anonymous") (pyOr file "unknown") "ACCESS" reason

/-- Specification-side chain predicate, relative to the hash `prev` of the
record preceding the sub-log: every record's `prev_hash` equals its
predecessor's `hash`, and every record's `hash` is the digest of its own
canonical serialization with the hash field omitted. -/
def chainOkFrom (H : String → String) (prev : String) : List AuditEntry → Bool
  | [] => true
  | e :: rest =>
    e.prev_hash == prev &&
    e.hash == H (serializeEntrySorted e.timestamp e.user e.file e.action e.status e.prev_hash) &&
    chainOkFrom H e.hash rest

/-- Chain predicate for a whole log (first record's `prev_hash` is ""). -/
def chainOk (H : String → String) (log : List AuditEntry) : Bool :=
  chainOkFrom H "" log

/-- The arguments of one `log_event` call. -/
structure LogEventArgs where
  timestamp : Nat
  user_id : String
  file_name : String
  action : String
  status : String

/-- The log file produced by a sequence of `log_event` calls starting from
an empty file. -/
def runAuditLog (H : String → String) (events : List LogEventArgs) : List AuditEntry :=
  events.foldl
    (fun log ev => log_event H log ev.timestamp ev.user_id ev.file_name ev.action ev.status) []

/-! ### Hex encoding (Python bytes.fromhex / bytes.hex) -/

/-- Value of one hexadecimal digit character, or `none`. -/
def hexDigitVal (c : Char) : Option Nat :=
  if 48 ≤ c.toNat ∧ c.toNat ≤ 57 then some (c.toNat - 48)
  else if 97 ≤ c.toNat ∧ c.toNat ≤ 102 then some (c.toNat - 87)
  else if 65 ≤ c.toNat ∧ c.toNat ≤ 70 then some (c.toNat - 55)
  else none

/-- Parse pairs of hexadecimal digits into byte values; an odd count or a
non-hex character fails. -/
def hexPairs : List Char → Option (List Nat)
  | [] => some []
  | [_] => none
  | c1 :: c2 :: rest =>
    match hexDigitVal c1, hexDigitVal c2, hexPairs rest with
    | some h, some l, some bs => some ((16 * h + l) :: bs)
    | _, _, _ => none

/-- Models Python `bytes.fromhex`: even-length hexadecimal (space
characters between bytes are skipped); the `ValueError` it raises
otherwise is modelled as `none`. -/
def bytesFromHex (s : String) : Option (List Nat) :=
  hexPairs (s.data.filter (fun c => c ≠ ' '))

/-- Models Python `bytes.hex()`: two lower-case hexadecimal digits per
byte. -/
def bytesToHex (bs : List Nat) : String :=
  String.mk (List.flatten (bs.map (fun b => [hexChar (b / 16 % 16), hexChar (b % 16)])))

/-! ### app/services/crypto/ops.py -/

/-- Abstract model of the external pycryptodome RSA-OAEP/SHA-256
primitives used by the source: `enc pub_pem plaintext_bytes` and
`dec priv ciphertext_bytes`; decryption returns `none` on failure,
modelling the `ValueError` raised by `PKCS1_OAEP.decrypt`. Keys are the
PEM strings the source passes around. -/
structure RSAScheme where
  enc : String → List Nat → List Nat
  dec : String → List Nat → Option (List Nat)

/-- Models `re_encrypt_key` (app/services/crypto/ops.py): unwrap the hex
key blob with the SRS private key, look up the doctor's public key, and
wrap the recovered content key for the doctor. The second component
counts invocations of `cipher_srs.decrypt`, i.e. uses of the SRS private
key, so that theorems can state that denied requests perform no unwrap. -/
def re_encrypt_key (S : RSAScheme) (srs_priv : String) (userPub : String → Option String)
    (encrypted_key_hex : String) (doctor_user_id : String) : Except String String × Nat :=
  match bytesFromHex encrypted_key_hex with
  | none => (Except.error "SRS Decryption Failed (Integrity Check)", 0)
  | some encrypted_key_bytes =>
    match S.dec srs_priv encrypted_key_bytes with
    | none => (Except.error "SRS Decryption Failed (Integrity Check)", 1)
    | some aes_key =>
      match userPub doctor_user_id with
      | none =>
        (Except.error ("Doctor public key not found for " ++ doctor_user_id ++
          ". Doctor must generate keys."), 1)
      | some doctor_pub_pem => (Except.ok (bytesToHex (S.enc doctor_pub_pem aes_key)), 1)

/-! ### storage/phr.py and the object metadata store -/

/-- Object metadata record as written to `cloud/meta/<name>.json`.
`revoked_users` is absent in a fresh record and every reader uses
`meta.get("revoked_users", [])`, so absence is modelled by the empty
list. The legacy `aes_key` field is omitted: the broker-mode flow never
writes it, and the blanket-revoke branch that tries to rewrite it catches
the resulting `KeyError` and leaves the record otherwise unchanged. -/
structure Meta where
  owner : String
  file : String
  policy : String
  key_blob : Option String
  iv : Option String
  mode : Option String
  revoked_users : List String
deriving DecidableEq

/-- A Flask `FileStorage` upload: the client-supplied filename and the
opaque ciphertext bytes. -/
structure FileStorage where
  filename : String
  content : List Nat
deriving DecidableEq

/-- The `.enc` blob name `store_encrypted_phr` derives from the uploaded
filename. -/
def encName (filename : String) : String :=
  if pyEndsWith filename ".enc" then filename else filename ++ ".enc"

/-- The metadata file name `store_encrypted_phr` derives from the blob
name (`enc_filename.replace(".enc", "") + ".json"`); `pyReplace` models
Python `str.replace`, which replaces every occurrence. -/
def uploadMetaName (filename : String) : String :=
  pyReplace (encName filename) ".enc" "" ++ ".json"

/-- The fresh metadata record `store_encrypted_phr` writes: mode
"client_side_encryption" and no `revoked_users` key. -/
def uploadMeta (owner_id policy key_blob iv filename : String) : Meta :=
  { owner := owner_id, file := encName filename, policy := policy,
    key_blob := some key_blob, iv := some iv,
    mode := some "client_side_encryption", revoked_users := [] }

/-- Models `store_encrypted_phr` (storage/phr.py): normalize the filename
to a `.enc` name, save the blob byte-identical under `cloud/data`, and
write a fresh metadata record under `cloud/meta`. Returns the `.enc` name
and the two updated stores. -/
def store_encrypted_phr (owner_id : String) (file_storage : FileStorage)
    (policy key_blob iv : String) (dataStore : String → Option (List Nat))
    (metaStore : String → Option Meta) :
    String × (String → Option (List Nat)) × (String → Option Meta) :=
  (encName file_storage.filename,
   fun n => if n = encName file_storage.filename then some file_storage.content
     else dataStore n,
   fun n => if n = uploadMetaName file_storage.filename then
     some (uploadMeta owner_id policy key_blob iv file_storage.filename) else metaStore n)

/-! ### The API endpoints (app/api/doctor.py, app/api/patient.py) -/

/-- The Flask session as the endpoints read it: `session.get` on an
absent key yields `none`. -/
structure Session where
  user_id : Option String
  role : Option String
deriving DecidableEq

/-- Response of an endpoint: a granted access payload or
`api_error(message, code)`. -/
inductive ApiResult where
  | granted (key_blob : String) (iv : Option String) (file_url : String)
  | err (msg : String) (code : Nat)
deriving DecidableEq

/-- Whether a response is the granted payload. -/
def isGranted : ApiResult → Bool
  | ApiResult.granted _ _ _ => true
  | ApiResult.err _ _ => false

/-- Response of the revoke endpoint. -/
inductive RevokeResult where
  | revoked (filename : String)
  | err (msg : String) (code : Nat)
deriving DecidableEq

/-- The environment `api_access` consults: identity store, attribute
rows, per-user public keys, the SRS private key, the RSA scheme, and the
digest primitive for the audit log. -/
structure Ctx where
  users : String → Option UserRec
  attrs : String → List (String × String)
  userPub : String → Option String
  srsPriv : String
  scheme : RSAScheme
  digest : String → String

/-- The `.json` metadata name the access and revoke endpoints derive from
a request filename. -/
def metaName (filename : String) : String :=
  if pyEndsWith filename ".json" then filename else filename ++ ".json"

/-- Metadata lookup of `api_access` (doctor.py lines 88-96): normalize
the filename to a `.json` name (the second normalization branch in the
source is unreachable), try it, then fall back to `filename + ".json"`. -/
def metaFor (metaStore : String → Option Meta) (filename : String) : Option Meta :=
  match metaStore (metaName filename) with
  | some meta => some meta
  | none => metaStore (filename ++ ".json")

/-- Models `api_access` (app/api/doctor.py): session and role gates (no
audit), metadata lookup, policy evaluation over the effective attribute
bag, revocation check, then SRS re-encryption and the grant audit.
Returns the response, the audit log after the request, and the number of
SRS-private-key decryptions performed. A `ValueError` escaping
`evaluate_policy` is caught by the endpoint's `except` and surfaced as
`api_error(str(e), 500)`; the model writes the fixed message
"ValueError" for it. -/
def api_access (ctx : Ctx) (sess : Session) (dataFile : Option String)
    (metaStore : String → Option Meta) (log : List AuditEntry) (timestamp : Nat) :
    ApiResult × List AuditEntry × Nat :=
  match sess.user_id with
  | none => (ApiResult.err "Unauthorized" 401, log, 0)
  | some uid =>
    if sess.role ≠ some "doctor" then (ApiResult.err "Forbidden" 403, log, 0)
    else
      match dataFile with
      | none => (ApiResult.err "file parameter required" 400, log, 0)
      | some filename =>
        if filename = "" then (ApiResult.err "file parameter required" 400, log, 0)
        else
          match metaFor metaStore filename with
          | none => (ApiResult.err "File metadata not found" 404, log, 0)
          | some meta =>
            match ctx.users uid with
            | none => (ApiResult.err "User not found" 404, log, 0)
            | some _doctor_user =>
              match evaluate_policy (get_user_attributes ctx.users ctx.attrs uid)
                  meta.policy with
              | none => (ApiResult.err "ValueError" 500, log, 0)
              | some false =>
                (ApiResult.err "Access denied: policy not satisfied" 403,
                 audit_deny ctx.digest log timestamp (some uid) (some filename) "DENIED_POLICY",
                 0)
              | some true =>
                if uid ∈ meta.revoked_users then
                  (ApiResult.err "Access denied: You have been revoked by the owner" 403,
                   audit_deny ctx.digest log timestamp (some uid) (some filename)
                     "DENIED_REVOKED",
                   0)
                else if meta.mode = some "client_side_encryption" then
                  match meta.key_blob with
                  | none => (ApiResult.err "Key blob missing in metadata" 500, log, 0)
                  | some key_blob =>
                    if key_blob = "" then
                      (ApiResult.err "Key blob missing in metadata" 500, log, 0)
                    else
                      match re_encrypt_key ctx.scheme ctx.srsPriv ctx.userPub key_blob uid with
                      | (Except.error e, n) => (ApiResult.err e 500, log, n)
                      | (Except.ok re_encrypted_key, n) =>
                        (ApiResult.granted re_encrypted_key meta.iv
                           ("/api/doctor/download/" ++ meta.file),
                         log_event ctx.digest log timestamp uid filename "ACCESS"
                           "GRANTED_RE_ENCRYPT",
                         n)
                else (ApiResult.err "Legacy file format not supported in Hybrid Mode" 400, log, 0)

/-- Models `api_revoke` (app/api/patient.py): session, role, filename and
ownership gates, then either the granular branch (append `target` to
`revoked_users` when absent, audit action "REVOKE_USER" with status
"Revoked <target>") or the blanket branch (rewrite the policy to the
sentinel `Role:__REVOKED__`, audit action "REVOKE" status "SUCCESS").
`data.get("revoke_user_id")` is falsy for both an absent key and the
empty string. Returns the response, the updated metadata store and the
audit log. -/
def api_revoke (digest : String → String) (sess : Session) (dataFilename : Option String)
    (revoke_user_id : Option String) (metaStore : String → Option Meta)
    (log : List AuditEntry) (timestamp : Nat) :
    RevokeResult × (String → Option Meta) × List AuditEntry :=
  match sess.user_id with
  | none => (RevokeResult.err "Unauthorized" 401, metaStore, log)
  | some uid =>
    if sess.role ≠ some "patient" then (RevokeResult.err "Forbidden" 403, metaStore, log)
    else
      match dataFilename with
      | none => (RevokeResult.err "Filename required" 400, metaStore, log)
      | some filename =>
        if filename = "" then (RevokeResult.err "Filename required" 400, metaStore, log)
        else
          match metaStore (metaName filename) with
          | none => (RevokeResult.err "File not found" 404, metaStore, log)
          | some meta =>
            if meta.owner ≠ uid then
              (RevokeResult.err "Forbidden: not file owner" 403, metaStore,
               audit_deny digest log timestamp (some uid) (some filename) "DENIED_OWNER")
            else
              match revoke_user_id with
              | some target =>
                if target = "" then
                  (RevokeResult.revoked filename,
                   fun n => if n = metaName filename then
                     some { meta with policy := "Role:__REVOKED__" } else metaStore n,
                   log_event digest log timestamp uid filename "REVOKE" "SUCCESS")
                else
                  (RevokeResult.revoked filename,
                   fun n => if n = metaName filename then
                     some { meta with revoked_users :=
                       if target ∈ meta.revoked_users then meta.revoked_users
                       else meta.revoked_users ++ [target] }
                     else metaStore n,
                   log_event digest log timestamp uid filename "REVOKE_USER"
                     ("Revoked " ++ target))
              | none =>
                (RevokeResult.revoked filename,
                 fun n => if n = metaName filename then
                   some { meta with policy := "Role:__REVOKED__" } else metaStore n,
                 log_event digest log timestamp uid filename "REVOKE" "SUCCESS")

/-- Response of the upload endpoint: success payload or error. -/
inductive UploadResult where
  | uploaded (filename : String)
  | err (msg : String) (code : Nat)
deriving DecidableEq

/-- Models `api_upload` (app/api/patient.py): role gate, the
`BadRequestKeyError` (HTTP 400) Flask raises for a missing `file` or
`policy` field, the explicit 400 for a missing or empty `key_blob` or
`iv`, then `store_encrypted_phr`. No policy-grammar or hex validation is
performed. Accessing `session["user_id"]` with no user id raises
`KeyError`, surfaced as a 500. Returns the response and the updated data
and metadata stores. -/
def api_upload (sess : Session) (file : Option FileStorage) (policy : Option String)
    (key_blob iv : Option String) (dataStore : String → Option (List Nat))
    (metaStore : String → Option Meta) :
    UploadResult × (String → Option (List Nat)) × (String → Option Meta) :=
  if sess.role ≠ some "patient" then (UploadResult.err "unauthorized" 403, dataStore, metaStore)
  else
    match file with
    | none => (UploadResult.err "BadRequestKeyError" 400, dataStore, metaStore)
    | some file_storage =>
      match policy with
      | none => (UploadResult.err "BadRequestKeyError" 400, dataStore, metaStore)
      | some policy_str =>
        match key_blob, iv with
        | some kb, some ivs =>
          if kb = "" ∨ ivs = "" then
            (UploadResult.err "Missing encryption parameters (key_blob or iv)" 400,
             dataStore, metaStore)
          else
            match sess.user_id with
            | none => (UploadResult.err "KeyError" 500, dataStore, metaStore)
            | some uid =>
              (UploadResult.uploaded
                 (pyReplace (pyReplace file_storage.filename ".enc" "") ".json" ""),
               (store_encrypted_phr uid file_storage policy_str kb ivs
                 dataStore metaStore).2.1,
               (store_encrypted_phr uid file_storage policy_str kb ivs
                 dataStore metaStore).2.2)
        | _, _ =>
          (UploadResult.err "Missing encryption parameters (key_blob or iv)" 400,
           dataStore, metaStore)

/-! ### Concrete fixtures used by witnesses and counterexamples -/

/-- A degenerate RSA scheme — identity encryption, always-succeeding
decryption — used to instantiate the abstract scheme in concrete runs. -/
def idScheme : RSAScheme :=
  { enc := fun _ m => m, dec := fun _ c => some c }

/-- A concrete environment: one doctor `d1` with a registered public key,
the identity scheme, and a constant digest function. -/
def ctxD : Ctx :=
  { users := fun uid => if uid = "d1" then some ⟨"doctor"⟩ else none,
    attrs := fun _ => [],
    userPub := fun uid => if uid = "d1" then some "d1pub" else none,
    srsPriv := "srspriv",
    scheme := idScheme,
    digest := fun _ => "h" }

/-- An object record whose policy `d1` satisfies and on which nobody is
revoked. -/
def metaX : Meta :=
  { owner := "p1", file := "x.enc", policy := "Role:Doctor",
    key_blob := some "0102", iv := some "ab",
    mode := some "client_side_encryption", revoked_users := [] }

/-- An object record whose policy `d1` does not satisfy and on which `d1`
is also revoked. -/
def metaY : Meta :=
  { owner := "p1", file := "y.enc", policy := "Role:Nurse",
    key_blob := some "0102", iv := some "ab",
    mode := some "client_side_encryption", revoked_users := ["d1"] }

/-- An object record whose policy `d1` satisfies but on which `d1` is
revoked. -/
def metaZ : Meta :=
  { owner := "p1", file := "z.enc", policy := "Role:Doctor",
    key_blob := some "0102", iv := some "ab",
    mode := some "client_side_encryption", revoked_users := ["d1"] }

/-- An object record whose policy string does not parse under the §4.2
grammar. -/
def metaW : Meta :=
  { owner := "p1", file := "w.enc", policy := "broken",
    key_blob := some "0102", iv := some "ab",
    mode := some "client_side_encryption", revoked_users := [] }

/-- Metadata store holding the four fixture records. -/
def storeXYZ : String → Option Meta :=
  fun n =>
    if n = "x.json" then some metaX
    else if n = "y.json" then some metaY
    else if n = "z.json" then some metaZ
    else if n = "w.json" then some metaW
    else none

/-! ### Lemmas about the audit chain -/

/-- The hash of the last record of a log, or `prev` when the log is
empty. -/
def lastHashD (prev : String) (log : List AuditEntry) : String :=
  match log.getLast? with
  | some e => e.hash
  | none => prev

theorem lastHashD_cons (prev : String) (x : AuditEntry) (xs : List AuditEntry) :
    lastHashD prev (x :: xs) = lastHashD x.hash xs := by
  cases xs with
  | nil => rfl
  | cons y ys =>
    unfold lastHashD
    rw [List.getLast?_cons_cons]
    cases hys : (y :: ys).getLast? with
    | none => simp at hys
    | some e => rfl

theorem lastHash_eq_lastHashD (log : List AuditEntry) : lastHash log = lastHashD "" log := rfl

/-- Appending a record whose `prev_hash` is the hash of the current last
record (or the running `prev` for an empty suffix) and whose `hash` is
the digest of its own serialization preserves the chain predicate. -/
theorem chainOkFrom_append (H : String → String) (e : AuditEntry) :
    ∀ (log : List AuditEntry) (prev : String), chainOkFrom H prev log = true →
    e.prev_hash = lastHashD prev log →
    e.hash = H (serializeEntrySorted e.timestamp e.user e.file e.action e.status e.prev_hash) →
    chainOkFrom H prev (log ++ [e]) = true
  | [], prev, _, hprev, hhash => by
    simp only [lastHashD, List.getLast?] at hprev
    simp [chainOkFrom, hprev, hhash]
  | x :: xs, prev, hok, hprev, hhash => by
    simp only [chainOkFrom, Bool.and_eq_true, beq_iff_eq] at hok
    obtain ⟨⟨h1, h2⟩, h3⟩ := hok
    simp only [List.cons_append, chainOkFrom, Bool.and_eq_true, beq_iff_eq]
    refine ⟨⟨h1, h2⟩, ?_⟩
    exact chainOkFrom_append H e xs x.hash h3 (by rw [hprev, lastHashD_cons]) hhash

/-- `log_event` preserves the chain predicate. -/
theorem log_event_chainOk (H : String → String) (log : List AuditEntry) (ts : Nat)
    (u f a s : String) (h : chainOk H log = true) :
    chainOk H (log_event H log ts u f a s) = true := by
  unfold chainOk log_event
  apply chainOkFrom_append H _ log "" h
  · exact lastHash_eq_lastHashD log
  · rfl

/-- Folding `log_event` over any event list preserves the chain
predicate. -/
theorem foldl_log_event_chainOk (H : String → String) (events : List LogEventArgs) :
    ∀ (log : List AuditEntry), chainOk H log = true →
    chainOk H (events.foldl
      (fun acc ev => log_event H acc ev.timestamp ev.user_id ev.file_name ev.action ev.status)
      log) = true := by
  induction events with
  | nil => intro log h; simpa using h
  | cons ev rest ih =>
    intro log h
    simp only [List.foldl_cons]
    exact ih _ (log_event_chainOk H log ev.timestamp ev.user_id ev.file_name ev.action
      ev.status h)

/-- C1: every log produced by a sequence of `log_event` appends is a
well-formed hash chain: each record's `prev_hash` equals the preceding
record's `hash` (the empty string for the first record), and each
record's `hash` equals the digest of the canonical (keys-sorted,
hash-omitted) JSON serialization of that record. -/
theorem audit_log_hash_chain (H : String → String) (events : List LogEventArgs) :
    chainOk H (runAuditLog H events) = true := by
  unfold runAuditLog
  exact foldl_log_event_chainOk H events [] rfl

/-! ### Lemmas about the derived Role attribute -/

theorem toNat_ofNat_valid (n : Nat) (h : n.isValidChar) : (Char.ofNat n).toNat = n := by
  unfold Char.ofNat
  rw [dif_pos h]
  rfl

/-- No character lower-cases to the upper-case letter `R`. -/
theorem toLower_ne_R (c : Char) : Char.toLower c ≠ 'R' := by
  intro h
  have hv : (Char.toLower c).toNat = 82 := by rw [h]; rfl
  simp only [Char.toLower] at hv
  split at hv
  · next hrange =>
    have hvalid : (c.toNat + 32).isValidChar := Or.inl (by omega)
    rw [toNat_ofNat_valid _ hvalid] at hv
    omega
  · next hrange => omega

/-- `pyCapitalize` lower-cases every character after the first, so it can
never produce the sentinel token `__REVOKED__`, whose third character is
an upper-case `R`. -/
theorem pyCapitalize_ne_revoked (s : String) : pyCapitalize s ≠ "__REVOKED__" := by
  unfold pyCapitalize
  cases hs : s.data with
  | nil => decide
  | cons c rest =>
    intro h
    have hd : c.toUpper :: rest.map Char.toLower = "__REVOKED__".data := congrArg String.data h
    have h2 : (c.toUpper :: rest.map Char.toLower).get? 2 = "__REVOKED__".data.get? 2 :=
      by rw [hd]
    have hlit : "__REVOKED__".data.get? 2 = some 'R' := rfl
    rw [hlit] at h2
    have h3 : (rest.map Char.toLower).get? 1 = some 'R' := h2
    rw [List.get?_eq_getElem?, List.getElem?_map] at h3
    match hr : rest[1]? with
    | none => rw [hr] at h3; simp at h3
    | some r =>
      rw [hr] at h3
      simp only [Option.map_some', Option.some.injEq] at h3
      exact toLower_ne_R r h3

/-- The effective attribute bag always reports the capitalized role from
the users table under the key `Role`, whatever the attribute rows hold. -/
theorem get_user_attributes_role (users : String → Option UserRec)
    (attrRows : String → List (String × String)) (uid : String) (u : UserRec)
    (h : users uid = some u) :
    get_user_attributes users attrRows uid "Role" = some (pyCapitalize u.role) := by
  unfold get_user_attributes
  rw [h]
  unfold dictSet
  simp

/-- C10: for every user present in the identity store and every state of
the attributes table, the effective bag maps `Role` to the stored role
with its first letter upper-cased and the rest lower-cased
(`str.capitalize`), and an admin `add_attribute` mutation — in particular
one writing an explicit `Role` row — cannot change the `Role` value the
policy evaluator sees. -/
theorem role_attribute_derived (users : String → Option UserRec)
    (attrRows : String → List (String × String)) (uid : String) (u : UserRec)
    (key value : String) (h : users uid = some u) :
    get_user_attributes users attrRows uid "Role" = some (pyCapitalize u.role) ∧
    get_user_attributes users (add_attribute attrRows uid key value) uid "Role" =
      some (pyCapitalize u.role) :=
  ⟨get_user_attributes_role users attrRows uid u h,
   get_user_attributes_role users (add_attribute attrRows uid key value) uid u h⟩

/-- Witness for C10: a patient with an explicit attribute row
`Role = Admin` still reads back `Role = Patient`. -/
theorem role_attribute_derived_witness :
    get_user_attributes (fun _ => some ⟨"patient"⟩) (fun _ => [("Role", "Admin")]) "u1"
      "Role" = some "Patient" ∧
    get_user_attributes (fun _ => some ⟨"patient"⟩)
      (add_attribute (fun _ => [("Role", "Admin")]) "u1" "Role" "Hacker") "u1" "Role" =
      some "Patient" :=
  role_attribute_derived (fun _ => some ⟨"patient"⟩) (fun _ => [("Role", "Admin")]) "u1"
    ⟨"patient"⟩ "Role" "Hacker" rfl

/-- C6: for every user present in the identity store, whatever the
attributes table holds, the sentinel policy `Role:__REVOKED__` evaluates
to `false` against the user's effective attribute bag: the derived `Role`
value is a capitalized string and can never equal `__REVOKED__`. -/
theorem revoked_sentinel_unsatisfied (users : String → Option UserRec)
    (attrRows : String → List (String × String)) (uid : String) (u : UserRec)
    (h : users uid = some u) :
    evaluate_policy (get_user_attributes users attrRows uid) "Role:__REVOKED__" =
      some false := by
  have hparse : parse_policy "Role:__REVOKED__" = some [("Role", "__REVOKED__")] := by decide
  unfold evaluate_policy
  rw [hparse]
  have hrole := get_user_attributes_role users attrRows uid u h
  simp only [List.all_cons, List.all_nil, Bool.and_true]
  unfold pyStrGet
  rw [hrole]
  simp only [Option.some.injEq]
  rw [beq_eq_false_iff_ne]
  exact pyCapitalize_ne_revoked u.role

/-- Witness for C6: a concrete doctor with an adversarial explicit
attribute row still cannot satisfy the sentinel policy. -/
theorem revoked_sentinel_unsatisfied_witness :
    evaluate_policy
      (get_user_attributes (fun _ => some ⟨"doctor"⟩)
        (fun _ => [("Role", "__REVOKED__")]) "d1")
      "Role:__REVOKED__" = some false :=
  revoked_sentinel_unsatisfied (fun _ => some ⟨"doctor"⟩)
    (fun _ => [("Role", "__REVOKED__")]) "d1" ⟨"doctor"⟩ rfl

/-! ### Theorems about the policy evaluator (C4, C5) -/

/-- C5 counterexample: against the empty attribute bag — in which the key
`Dept` is absent — the well-formed policy "Dept:None" evaluates to
`true`, not `false`: `str(dict.get("Dept"))` is the string "None", which
equals the value token. -/
theorem evaluate_policy_absent_key_cex :
    parse_policy "Dept:None" = some [("Dept", "None")] ∧
    (fun _ => (none : Option String)) "Dept" = none ∧
    evaluate_policy (fun _ => none) "Dept:None" = some true :=
  ⟨by decide, rfl, by decide⟩

/-- C5 (amended): for a policy that parses, evaluation returns `true` iff
every parsed clause `(k, v)` satisfies `str(A.get(k)) == v`, where an
absent key reads as the string "None" — so a clause with an absent key
fails unless its value token is exactly "None". -/
theorem evaluate_policy_iff (bag : String → Option String) (p : String)
    (rules : List (String × String)) (h : parse_policy p = some rules) :
    evaluate_policy bag p = some true ↔ ∀ kv ∈ rules, pyStrGet bag kv.1 = kv.2 := by
  unfold evaluate_policy
  rw [h]
  simp only [Option.some.injEq, List.all_eq_true, beq_iff_eq]

/-- Witness for the amended C5: a two-clause policy against a matching
bag. -/
theorem evaluate_policy_iff_witness :
    evaluate_policy (dictOf [("Role", "Doctor"), ("Dept", "Cardio")])
      "Role:Doctor AND Dept:Cardio" = some true ↔
    ∀ kv ∈ [("Role", "Doctor"), ("Dept", "Cardio")],
      pyStrGet (dictOf [("Role", "Doctor"), ("Dept", "Cardio")]) kv.1 = kv.2 :=
  evaluate_policy_iff (dictOf [("Role", "Doctor"), ("Dept", "Cardio")])
    "Role:Doctor AND Dept:Cardio" [("Role", "Doctor"), ("Dept", "Cardio")] (by decide)

/-- C4 counterexample: on malformed policies — the empty string, a clause
with no colon, a clause with two colons — `evaluate_policy` raises
`ValueError` (modelled `none`); it does not return the boolean
"not satisfied". -/
theorem evaluate_policy_malformed_cex :
    evaluate_policy (fun _ => none) "" = none ∧
    evaluate_policy (fun _ => none) "Role" = none ∧
    evaluate_policy (fun _ => none) "a:b:c" = none ∧
    (none : Option Bool) ≠ some false :=
  ⟨by decide, by decide, by decide, by decide⟩

/-- C4 (amended): the evaluator is not total — a policy string that fails
to parse makes `evaluate_policy` raise (modelled `none`) rather than
return `false`; the access endpoint catches the exception and returns a
500 error with no grant and no audit record, so a malformed policy still
never grants access, by exception rather than by a returned boolean. -/
theorem evaluate_policy_malformed_amended :
    (∀ (bag : String → Option String) (p : String), parse_policy p = none →
      evaluate_policy bag p = none) ∧
    (∀ (ctx : Ctx) (sess : Session) (uid filename : String) (u : UserRec)
       (metaStore : String → Option Meta) (meta : Meta) (log : List AuditEntry) (ts : Nat),
      sess.user_id = some uid → sess.role = some "doctor" → filename ≠ "" →
      metaFor metaStore filename = some meta → ctx.users uid = some u →
      parse_policy meta.policy = none →
      api_access ctx sess (some filename) metaStore log ts =
        (ApiResult.err "ValueError" 500, log, 0)) := by
  constructor
  · intro bag p h
    unfold evaluate_policy
    rw [h]
  · intro ctx sess uid filename u metaStore meta log ts h1 h2 h3 h4 h5 h6
    have heval : evaluate_policy (get_user_attributes ctx.users ctx.attrs uid) meta.policy
        = none := by
      unfold evaluate_policy
      rw [h6]
    unfold api_access
    rw [h1]
    simp only [h2, h3, h4, h5, heval, ne_eq, not_true_eq_false, if_false, ite_false]

/-- Witness for the amended C4: the malformed policy "broken" makes the
evaluator raise, and the access request on an object carrying it returns
a 500 error with no audit record and no SRS decryption. -/
theorem evaluate_policy_malformed_amended_witness :
    evaluate_policy (fun _ => none) "broken" = none ∧
    api_access ctxD ⟨some "d1", some "doctor"⟩ (some "w") storeXYZ [] 2 =
      (ApiResult.err "ValueError" 500, [], 0) :=
  ⟨evaluate_policy_malformed_amended.1 (fun _ => none) "broken" (by decide),
   evaluate_policy_malformed_amended.2 ctxD ⟨some "d1", some "doctor"⟩ "d1" "w" ⟨"doctor"⟩
     storeXYZ metaW [] 2 rfl rfl (by decide) (by decide) (by decide) (by decide)⟩

/-! ### Path lemmas for the access endpoint -/

/-- Running `api_access` down the DENIED_POLICY branch: the response is a
403, one DENIED_POLICY record is audited, and no SRS decryption happens —
whether or not the caller is also revoked. -/
theorem api_access_policy_denied (ctx : Ctx) (sess : Session) (uid filename : String)
    (u : UserRec) (metaStore : String → Option Meta) (meta : Meta) (log : List AuditEntry)
    (ts : Nat) (h1 : sess.user_id = some uid) (h2 : sess.role = some "doctor")
    (h3 : filename ≠ "") (h4 : metaFor metaStore filename = some meta)
    (h5 : ctx.users uid = some u)
    (h6 : evaluate_policy (get_user_attributes ctx.users ctx.attrs uid) meta.policy =
      some false) :
    api_access ctx sess (some filename) metaStore log ts =
      (ApiResult.err "Access denied: policy not satisfied" 403,
       audit_deny ctx.digest log ts (some uid) (some filename) "DENIED_POLICY", 0) := by
  unfold api_access
  rw [h1]
  simp only [h2, h3, h4, h5, h6, ne_eq, not_true_eq_false, if_false, ite_false]

/-- Running `api_access` down the DENIED_REVOKED branch: policy satisfied
but the caller is in `revoked_users`; one DENIED_REVOKED record is
audited; no SRS decryption happens. -/
theorem api_access_revoked (ctx : Ctx) (sess : Session) (uid filename : String)
    (u : UserRec) (metaStore : String → Option Meta) (meta : Meta) (log : List AuditEntry)
    (ts : Nat) (h1 : sess.user_id = some uid) (h2 : sess.role = some "doctor")
    (h3 : filename ≠ "") (h4 : metaFor metaStore filename = some meta)
    (h5 : ctx.users uid = some u)
    (h6 : evaluate_policy (get_user_attributes ctx.users ctx.attrs uid) meta.policy =
      some true)
    (h7 : uid ∈ meta.revoked_users) :
    api_access ctx sess (some filename) metaStore log ts =
      (ApiResult.err "Access denied: You have been revoked by the owner" 403,
       audit_deny ctx.digest log ts (some uid) (some filename) "DENIED_REVOKED", 0) := by
  unfold api_access
  rw [h1]
  simp only [h2, h3, h4, h5, h6, h7, ne_eq, not_true_eq_false, if_false, ite_false,
    if_true, ite_true]

/-- Running `api_access` down the granted branch: all gates pass and the
re-encryption succeeds; one GRANTED_RE_ENCRYPT record is audited and the
re-wrapped key is returned. -/
theorem api_access_granted (ctx : Ctx) (sess : Session) (uid filename : String)
    (u : UserRec) (metaStore : String → Option Meta) (meta : Meta) (log : List AuditEntry)
    (ts : Nat) (kb rk : String) (n : Nat)
    (h1 : sess.user_id = some uid) (h2 : sess.role = some "doctor")
    (h3 : filename ≠ "") (h4 : metaFor metaStore filename = some meta)
    (h5 : ctx.users uid = some u)
    (h6 : evaluate_policy (get_user_attributes ctx.users ctx.attrs uid) meta.policy =
      some true)
    (h7 : uid ∉ meta.revoked_users)
    (h8 : meta.mode = some "client_side_encryption")
    (h9 : meta.key_blob = some kb) (h10 : kb ≠ "")
    (h11 : re_encrypt_key ctx.scheme ctx.srsPriv ctx.userPub kb uid = (Except.ok rk, n)) :
    api_access ctx sess (some filename) metaStore log ts =
      (ApiResult.granted rk meta.iv ("/api/doctor/download/" ++ meta.file),
       log_event ctx.digest log ts uid filename "ACCESS" "GRANTED_RE_ENCRYPT", n) := by
  unfold api_access
  rw [h1]
  simp only [h2, h3, h4, h5, h6, h7, h8, h9, h10, h11, ne_eq, not_true_eq_false, if_false,
    ite_false, not_false_eq_true, if_true, ite_true]

/-- Case analysis on a full `api_access` run: either no SRS decryption was
performed, or the request was granted, or it failed with a 500 error (the
only path that can decrypt and still fail). -/
theorem api_access_cases (ctx : Ctx) (sess : Session) (dataFile : Option String)
    (metaStore : String → Option Meta) (log : List AuditEntry) (ts : Nat) :
    (api_access ctx sess dataFile metaStore log ts).2.2 = 0 ∨
    (∃ rk ivv url, (api_access ctx sess dataFile metaStore log ts).1 =
      ApiResult.granted rk ivv url) ∨
    (∃ m, (api_access ctx sess dataFile metaStore log ts).1 = ApiResult.err m 500) := by
  unfold api_access
  repeat' split
  all_goals
    first
    | (left; rfl)
    | (right; left; exact ⟨_, _, _, rfl⟩)
    | (right; right; exact ⟨_, rfl⟩)

/-! ### C7: ordering of the access gates -/

/-- C7: the broker evaluates the policy before the revocation set — a
caller whose bag fails the policy is denied DENIED_POLICY with no SRS
decryption, whatever the revocation set holds (in particular when the
caller is also revoked) — and no request that ends in a denial (any
non-500 error response) performs an SRS-private-key decryption. -/
theorem policy_before_revocation_no_crypto_on_deny :
    (∀ (ctx : Ctx) (sess : Session) (uid filename : String) (u : UserRec)
       (metaStore : String → Option Meta) (meta : Meta) (log : List AuditEntry) (ts : Nat),
      sess.user_id = some uid → sess.role = some "doctor" → filename ≠ "" →
      metaFor metaStore filename = some meta → ctx.users uid = some u →
      evaluate_policy (get_user_attributes ctx.users ctx.attrs uid) meta.policy =
        some false →
      api_access ctx sess (some filename) metaStore log ts =
        (ApiResult.err "Access denied: policy not satisfied" 403,
         audit_deny ctx.digest log ts (some uid) (some filename) "DENIED_POLICY", 0)) ∧
    (∀ (ctx : Ctx) (sess : Session) (dataFile : Option String)
       (metaStore : String → Option Meta) (log : List AuditEntry) (ts : Nat)
       (m : String) (c : Nat),
      (api_access ctx sess dataFile metaStore log ts).1 = ApiResult.err m c → c ≠ 500 →
      (api_access ctx sess dataFile metaStore log ts).2.2 = 0) := by
  constructor
  · exact fun ctx sess uid filename u ms meta log ts h1 h2 h3 h4 h5 h6 =>
      api_access_policy_denied ctx sess uid filename u ms meta log ts h1 h2 h3 h4 h5 h6
  · intro ctx sess dataFile metaStore log ts m c herr hc
    rcases api_access_cases ctx sess dataFile metaStore log ts with h | ⟨rk, ivv, url, h⟩ |
      ⟨m', h⟩
    · exact h
    · rw [h] at herr; exact absurd herr (by simp)
    · rw [h] at herr
      cases herr
      exact absurd rfl hc

/-- Witness for C7: the concrete caller `d1` is in `metaY.revoked_users`
and fails `metaY`'s policy; the denial is DENIED_POLICY (not
DENIED_REVOKED) and no SRS decryption happens. -/
theorem policy_before_revocation_witness :
    "d1" ∈ metaY.revoked_users ∧
    api_access ctxD ⟨some "d1", some "doctor"⟩ (some "y") storeXYZ [] 3 =
      (ApiResult.err "Access denied: policy not satisfied" 403,
       audit_deny ctxD.digest [] 3 (some "d1") (some "y") "DENIED_POLICY", 0) ∧
    (api_access ctxD ⟨some "d1", some "doctor"⟩ (some "y") storeXYZ [] 3).2.2 = 0 := by
  have hrun := policy_before_revocation_no_crypto_on_deny.1 ctxD ⟨some "d1", some "doctor"⟩
    "d1" "y" ⟨"doctor"⟩ storeXYZ metaY [] 3 rfl rfl (by decide) (by decide) (by decide)
    (by decide)
  refine ⟨by decide, hrun, ?_⟩
  exact policy_before_revocation_no_crypto_on_deny.2 ctxD ⟨some "d1", some "doctor"⟩
    (some "y") storeXYZ [] 3 "Access denied: policy not satisfied" 403
    (by rw [hrun]) (by decide)

/-! ### C3: audit records of the access endpoint -/

/-- C3 counterexample: the claim fails on the code in two ways. A
concretely granted access request is audited with status
GRANTED_RE_ENCRYPT, which is none of the statuses the specification
lists (in particular not GRANTED_REWRAP); and two access requests on
stored objects append no audit record at all — an unauthenticated
request on object `x`, and an authenticated doctor's request on object
`w`, whose malformed policy makes the endpoint answer 500 — refuting
"appends exactly one audit record". -/
theorem access_audit_claim_cex :
    ((api_access ctxD ⟨some "d1", some "doctor"⟩ (some "x") storeXYZ [] 7).2.1.map
      AuditEntry.status = ["GRANTED_RE_ENCRYPT"]) ∧
    isGranted (api_access ctxD ⟨some "d1", some "doctor"⟩ (some "x") storeXYZ [] 7).1 =
      true ∧
    "GRANTED_RE_ENCRYPT" ∉ ["GRANTED_REWRAP", "DENIED_POLICY", "DENIED_REVOKED",
      "DENIED_ROLE", "DENIED_AUTH", "INVALID_REQUEST"] ∧
    storeXYZ "x.json" = some metaX ∧
    (api_access ctxD ⟨none, none⟩ (some "x") storeXYZ [] 7).2.1 = [] ∧
    storeXYZ "w.json" = some metaW ∧
    (api_access ctxD ⟨some "d1", some "doctor"⟩ (some "w") storeXYZ [] 7).2.1 = [] := by
  refine ⟨by decide, by decide, by decide, by decide, by decide, by decide, by decide⟩

/-- C3 (amended): an access request appends an audit record — always
exactly one, with action ACCESS — precisely when it is denied by policy,
denied by revocation, or granted, and the record's status determines the
response: a DENIED_POLICY record is appended iff the response is the 403
policy denial, a DENIED_REVOKED record iff the response is the 403
revocation denial, and a GRANTED_RE_ENCRYPT record iff the request is
granted (the specification's GRANTED_REWRAP never occurs). Every other
outcome — authentication, role, object-lookup, user-resolution,
legacy-mode or crypto failure — is neither granted nor one of those two
denial responses and appends no record. -/
theorem access_audit_amended (ctx : Ctx) (sess : Session) (dataFile : Option String)
    (metaStore : String → Option Meta) (log : List AuditEntry) (ts : Nat) :
    (∃ e, (api_access ctx sess dataFile metaStore log ts).2.1 = log ++ [e] ∧
      e.action = "ACCESS" ∧
      ((e.status = "DENIED_POLICY" ∧
          (api_access ctx sess dataFile metaStore log ts).1 =
            ApiResult.err "Access denied: policy not satisfied" 403) ∨
       (e.status = "DENIED_REVOKED" ∧
          (api_access ctx sess dataFile metaStore log ts).1 =
            ApiResult.err "Access denied: You have been revoked by the owner" 403) ∨
       (e.status = "GRANTED_RE_ENCRYPT" ∧
          isGranted (api_access ctx sess dataFile metaStore log ts).1 = true))) ∨
    ((api_access ctx sess dataFile metaStore log ts).2.1 = log ∧
      isGranted (api_access ctx sess dataFile metaStore log ts).1 = false ∧
      (api_access ctx sess dataFile metaStore log ts).1 ≠
        ApiResult.err "Access denied: policy not satisfied" 403 ∧
      (api_access ctx sess dataFile metaStore log ts).1 ≠
        ApiResult.err "Access denied: You have been revoked by the owner" 403) := by
  unfold api_access
  repeat' split
  all_goals first
    | (right; refine ⟨rfl, rfl, ?_, ?_⟩ <;> simp)
    | (left
       refine ⟨_, rfl, rfl, ?_⟩
       first
         | exact Or.inl ⟨rfl, rfl⟩
         | exact Or.inr (Or.inl ⟨rfl, rfl⟩)
         | exact Or.inr (Or.inr ⟨rfl, rfl⟩))

/-! ### C8: revocation semantics -/

/-- C8 counterexample: `d1` is in `metaY.revoked_users`, yet its access
request on that object is audited DENIED_POLICY — not DENIED_REVOKED —
because the policy check runs first and `d1` does not satisfy `metaY`'s
policy. -/
theorem revoked_access_not_denied_revoked_cex :
    "d1" ∈ metaY.revoked_users ∧
    ((api_access ctxD ⟨some "d1", some "doctor"⟩ (some "y") storeXYZ [] 9).2.1.map
      AuditEntry.status = ["DENIED_POLICY"]) ∧
    "DENIED_POLICY" ≠ "DENIED_REVOKED" := by
  refine ⟨by decide, by decide, by decide⟩

/-- A granular revoke (owner session, existing record, non-empty target)
places the target in the stored record's `revoked_users`. -/
theorem api_revoke_adds_target (digest : String → String) (sess : Session)
    (uid filename target : String) (metaStore : String → Option Meta)
    (meta : Meta) (log : List AuditEntry) (ts : Nat)
    (h1 : sess.user_id = some uid) (h2 : sess.role = some "patient")
    (h3 : filename ≠ "") (h4 : target ≠ "")
    (h5 : metaStore (metaName filename) = some meta) (h6 : meta.owner = uid) :
    ∃ meta',
      (api_revoke digest sess (some filename) (some target) metaStore log ts).2.1
        (metaName filename) = some meta' ∧
      target ∈ meta'.revoked_users ∧
      (api_revoke digest sess (some filename) (some target) metaStore log ts).1 =
        RevokeResult.revoked filename := by
  unfold api_revoke
  rw [h1]
  simp only [h2, h3, h4, h5, h6, ne_eq, not_true_eq_false, if_false, ite_false,
    not_false_eq_true, if_true, ite_true]
  refine ⟨_, rfl, ?_, ?_⟩
  · by_cases hmem : target ∈ meta.revoked_users
    · simp [hmem]
    · simp [hmem]
  · trivial

/-- Inserting a record with a larger revocation set under one name keeps
every other name intact and only extends revocation sets. -/
theorem store_update_mono (metaStore : String → Option Meta) (mf : String)
    (meta meta' : Meta) (hstore : metaStore mf = some meta)
    (hsub : ∀ t ∈ meta.revoked_users, t ∈ meta'.revoked_users)
    (n : String) (m' : Meta)
    (h : (if n = mf then some meta' else metaStore n) = some m') :
    ∃ m, metaStore n = some m ∧ ∀ t ∈ m.revoked_users, t ∈ m'.revoked_users := by
  by_cases hn : n = mf
  · rw [if_pos hn] at h
    cases h
    exact ⟨meta, hn ▸ hstore, hsub⟩
  · rw [if_neg hn] at h
    exact ⟨m', h, fun t ht => ht⟩

/-- No run of `api_revoke` ever removes a user from any record's
`revoked_users`: every record in the resulting store extends the
revocation set of the record previously stored under the same name. -/
theorem api_revoke_monotone (digest : String → String) (sess : Session)
    (dataFilename revoke_user_id : Option String) (metaStore : String → Option Meta)
    (log : List AuditEntry) (ts : Nat) (n : String) (m' : Meta)
    (h : (api_revoke digest sess dataFilename revoke_user_id metaStore log ts).2.1 n =
      some m') :
    ∃ m, metaStore n = some m ∧ ∀ t ∈ m.revoked_users, t ∈ m'.revoked_users := by
  unfold api_revoke at h
  repeat' split at h
  all_goals first
    | exact ⟨m', h, fun t ht => ht⟩
    | exact store_update_mono _ _ _ _ (by assumption)
        (by intro t ht
            first
              | exact ht
              | exact List.mem_append_left _ ht) n m' h

/-- C8 (amended): a granular revoke places the target in the record's
`revoked_users`; no revoke operation (granular or blanket) ever removes a
user from any record's revocation set (a re-upload under the same object
name, out of the revoke/access flows, rewrites the record with an empty
set); and every subsequent access by a revoked caller that reaches the
revocation check — i.e. that satisfies the policy, which is checked first
— is audited DENIED_REVOKED and rejected with 403. -/
theorem revocation_monotone_amended :
    (∀ (digest : String → String) (sess : Session) (uid filename target : String)
       (metaStore : String → Option Meta) (meta : Meta) (log : List AuditEntry) (ts : Nat),
      sess.user_id = some uid → sess.role = some "patient" → filename ≠ "" → target ≠ "" →
      metaStore (metaName filename) = some meta → meta.owner = uid →
      ∃ meta',
        (api_revoke digest sess (some filename) (some target) metaStore log ts).2.1
          (metaName filename) = some meta' ∧ target ∈ meta'.revoked_users) ∧
    (∀ (digest : String → String) (sess : Session) (df target : Option String)
       (metaStore : String → Option Meta) (log : List AuditEntry) (ts : Nat) (n : String)
       (m' : Meta),
      (api_revoke digest sess df target metaStore log ts).2.1 n = some m' →
      ∃ m, metaStore n = some m ∧ ∀ t ∈ m.revoked_users, t ∈ m'.revoked_users) ∧
    (∀ (ctx : Ctx) (sess : Session) (uid filename : String) (u : UserRec)
       (metaStore : String → Option Meta) (meta : Meta) (log : List AuditEntry) (ts : Nat),
      sess.user_id = some uid → sess.role = some "doctor" → filename ≠ "" →
      metaFor metaStore filename = some meta → ctx.users uid = some u →
      evaluate_policy (get_user_attributes ctx.users ctx.attrs uid) meta.policy =
        some true →
      uid ∈ meta.revoked_users →
      api_access ctx sess (some filename) metaStore log ts =
        (ApiResult.err "Access denied: You have been revoked by the owner" 403,
         audit_deny ctx.digest log ts (some uid) (some filename) "DENIED_REVOKED", 0)) := by
  refine ⟨?_, ?_, ?_⟩
  · intro digest sess uid filename target metaStore meta log ts h1 h2 h3 h4 h5 h6
    obtain ⟨meta', hm, hmem, _⟩ := api_revoke_adds_target digest sess uid filename target
      metaStore meta log ts h1 h2 h3 h4 h5 h6
    exact ⟨meta', hm, hmem⟩
  · intro digest sess df target metaStore log ts n m' h
    exact api_revoke_monotone digest sess df target metaStore log ts n m' h
  · intro ctx sess uid filename u metaStore meta log ts h1 h2 h3 h4 h5 h6 h7
    exact api_access_revoked ctx sess uid filename u metaStore meta log ts h1 h2 h3 h4 h5
      h6 h7

/-- Witness for the amended C8: revoking `d2` on object `x` stores a
record listing `d2`; the store after that revoke only extends revocation
sets; and the revoked, policy-satisfying caller `d1` is denied
DENIED_REVOKED on object `z`. -/
theorem revocation_monotone_amended_witness :
    (∃ meta',
      (api_revoke (fun _ => "h") ⟨some "p1", some "patient"⟩ (some "x") (some "d2")
        storeXYZ [] 5).2.1 (metaName "x") = some meta' ∧ "d2" ∈ meta'.revoked_users) ∧
    (∃ m, storeXYZ "x.json" = some m ∧ ∀ t ∈ m.revoked_users,
      t ∈ ({ metaX with revoked_users := ["d2"] } : Meta).revoked_users) ∧
    api_access ctxD ⟨some "d1", some "doctor"⟩ (some "z") storeXYZ [] 11 =
      (ApiResult.err "Access denied: You have been revoked by the owner" 403,
       audit_deny ctxD.digest [] 11 (some "d1") (some "z") "DENIED_REVOKED", 0) := by
  refine ⟨?_, ?_, ?_⟩
  · exact revocation_monotone_amended.1 (fun _ => "h") ⟨some "p1", some "patient"⟩ "p1" "x"
      "d2" storeXYZ metaX [] 5 rfl rfl (by decide) (by decide) (by decide) (by decide)
  · exact revocation_monotone_amended.2.1 (fun _ => "h") ⟨some "p1", some "patient"⟩
      (some "x") (some "d2") storeXYZ [] 5 "x.json" { metaX with revoked_users := ["d2"] }
      (by decide)
  · exact revocation_monotone_amended.2.2 ctxD ⟨some "d1", some "doctor"⟩ "d1" "z"
      ⟨"doctor"⟩ storeXYZ metaZ [] 11 rfl rfl (by decide) (by decide) (by decide)
      (by decide) (by decide)

/-! ### Hex round trip and the C2 key round trip -/

theorem hexDigitVal_hexChar (n : Nat) (h : n < 16) : hexDigitVal (hexChar n) = some n := by
  have hfin : ∀ m : Fin 16, hexDigitVal (hexChar m.val) = some m.val := by decide
  exact hfin ⟨n, h⟩

theorem hexChar_ne_space (n : Nat) (h : n < 16) : hexChar n ≠ ' ' := by
  have hfin : ∀ m : Fin 16, hexChar m.val ≠ ' ' := by decide
  exact hfin ⟨n, h⟩

theorem hexPairs_encode (bs : List Nat) (h : ∀ b ∈ bs, b < 256) :
    hexPairs (List.flatten (bs.map (fun b => [hexChar (b / 16 % 16), hexChar (b % 16)])))
      = some bs := by
  induction bs with
  | nil => rfl
  | cons b rest ih =>
    have e1 := hexDigitVal_hexChar (b / 16 % 16) (by omega)
    have e2 := hexDigitVal_hexChar (b % 16) (by omega)
    have e3 := ih (fun x hx => h x (List.mem_cons_of_mem b hx))
    have hb : b < 256 := h b (List.mem_cons_self b rest)
    have hval : 16 * (b / 16 % 16) + b % 16 = b := by omega
    simp [hexPairs, e1, e2, e3, hval]

/-- Python `bytes.fromhex(bytes.hex(bs))` recovers the byte list. -/
theorem bytesFromHex_bytesToHex (bs : List Nat) (h : ∀ b ∈ bs, b < 256) :
    bytesFromHex (bytesToHex bs) = some bs := by
  unfold bytesFromHex bytesToHex
  have hfilter : (List.flatten (bs.map
        (fun b => [hexChar (b / 16 % 16), hexChar (b % 16)]))).filter
        (fun c => c ≠ ' ') =
      List.flatten (bs.map (fun b => [hexChar (b / 16 % 16), hexChar (b % 16)])) := by
    rw [List.filter_eq_self]
    intro c hc
    simp only [List.mem_flatten, List.mem_map] at hc
    obtain ⟨l, ⟨b, _, rfl⟩, hcl⟩ := hc
    rcases (by simpa using hcl : c = hexChar (b / 16 % 16) ∨ c = hexChar (b % 16)) with
      rfl | rfl
    · exact decide_eq_true (hexChar_ne_space _ (by omega))
    · exact decide_eq_true (hexChar_ne_space _ (by omega))
  rw [show (String.mk (List.flatten (bs.map
      (fun b => [hexChar (b / 16 % 16), hexChar (b % 16)])))).data =
    List.flatten (bs.map (fun b => [hexChar (b / 16 % 16), hexChar (b % 16)])) from rfl]
  rw [hfilter]
  exact hexPairs_encode bs h

theorem bytesToHex_ne_empty (bs : List Nat) (h : bs ≠ []) : bytesToHex bs ≠ "" := by
  cases bs with
  | nil => exact absurd rfl h
  | cons b rest =>
    intro he
    have hdata : (bytesToHex (b :: rest)).data = [] := by rw [he]
    simp [bytesToHex] at hdata

/-- Successful run of `re_encrypt_key`: a key blob that is the hex of a
ciphertext the SRS private key decrypts, for a doctor with a registered
public key, yields the content key re-wrapped under the doctor's key
(one SRS decryption). -/
theorem re_encrypt_key_ok (S : RSAScheme) (srs_priv : String)
    (userPub : String → Option String) (uid dpk : String) (K C : List Nat)
    (hC : ∀ b ∈ C, b < 256) (hdec : S.dec srs_priv C = some K)
    (hpub : userPub uid = some dpk) :
    re_encrypt_key S srs_priv userPub (bytesToHex C) uid =
      (Except.ok (bytesToHex (S.enc dpk K)), 1) := by
  unfold re_encrypt_key
  simp only [bytesFromHex_bytesToHex C hC, hdec, hpub]

/-- C2: when the policy is satisfied and the caller is not revoked, an
access request on a broker-mode object whose `key_blob` is the content
key `K` wrapped to the SRS public key returns `K` re-wrapped to the
caller's public key: decrypting the returned hex blob with the caller's
private key recovers exactly `K`. The RSA-OAEP hypotheses are the
correctness contract of the external pycryptodome primitives. -/
theorem access_key_roundtrip (ctx : Ctx) (sess : Session) (uid filename : String)
    (u : UserRec) (metaStore : String → Option Meta) (meta : Meta) (log : List AuditEntry)
    (ts : Nat) (srsPub docPriv dpk : String) (K : List Nat)
    (h1 : sess.user_id = some uid) (h2 : sess.role = some "doctor") (h3 : filename ≠ "")
    (h4 : metaFor metaStore filename = some meta) (h5 : ctx.users uid = some u)
    (h6 : evaluate_policy (get_user_attributes ctx.users ctx.attrs uid) meta.policy =
      some true)
    (h7 : uid ∉ meta.revoked_users)
    (h8 : meta.mode = some "client_side_encryption")
    (h9 : meta.key_blob = some (bytesToHex (ctx.scheme.enc srsPub K)))
    (henc1 : ∀ b ∈ ctx.scheme.enc srsPub K, b < 256)
    (henc1ne : ctx.scheme.enc srsPub K ≠ [])
    (hdecS : ctx.scheme.dec ctx.srsPriv (ctx.scheme.enc srsPub K) = some K)
    (hdpk : ctx.userPub uid = some dpk)
    (henc2 : ∀ b ∈ ctx.scheme.enc dpk K, b < 256)
    (hdecU : ctx.scheme.dec docPriv (ctx.scheme.enc dpk K) = some K) :
    (api_access ctx sess (some filename) metaStore log ts).1 =
      ApiResult.granted (bytesToHex (ctx.scheme.enc dpk K)) meta.iv
        ("/api/doctor/download/" ++ meta.file) ∧
    (bytesFromHex (bytesToHex (ctx.scheme.enc dpk K))).bind (ctx.scheme.dec docPriv) =
      some K := by
  have hrek := re_encrypt_key_ok ctx.scheme ctx.srsPriv ctx.userPub uid dpk K
    (ctx.scheme.enc srsPub K) henc1 hdecS hdpk
  have hrun := api_access_granted ctx sess uid filename u metaStore meta log ts
    (bytesToHex (ctx.scheme.enc srsPub K)) (bytesToHex (ctx.scheme.enc dpk K)) 1
    h1 h2 h3 h4 h5 h6 h7 h8 h9 (bytesToHex_ne_empty _ henc1ne) hrek
  constructor
  · rw [hrun]
  · rw [bytesFromHex_bytesToHex _ henc2]
    exact hdecU

/-- Witness for C2: the concrete doctor `d1` accessing object `x`, whose
key blob "0102" is the identity-scheme wrap of K = [1, 2], receives a
blob its private key decrypts back to [1, 2]. -/
theorem access_key_roundtrip_witness :
    (api_access ctxD ⟨some "d1", some "doctor"⟩ (some "x") storeXYZ [] 13).1 =
      ApiResult.granted (bytesToHex (ctxD.scheme.enc "d1pub" [1, 2])) metaX.iv
        ("/api/doctor/download/" ++ metaX.file) ∧
    (bytesFromHex (bytesToHex (ctxD.scheme.enc "d1pub" [1, 2]))).bind
      (ctxD.scheme.dec "d1priv") = some [1, 2] :=
  access_key_roundtrip ctxD ⟨some "d1", some "doctor"⟩ "d1" "x" ⟨"doctor"⟩ storeXYZ metaX
    [] 13 "srspub" "d1priv" "d1pub" [1, 2] rfl rfl (by decide) (by decide) (by decide)
    (by decide) (by decide) (by decide) (by decide) (by decide) (by decide) (by decide)
    (by decide) (by decide) (by decide)

/-! ### C9: upload validation -/

/-- C9 counterexample: an upload whose policy does not parse under the
§4.2 grammar ("nocolon") and whose key and nonce are not even-length hex
("zzz", "q") is accepted with a success response, and both the object
record and the blob are created, storing the invalid values verbatim. -/
theorem upload_no_validation_cex :
    parse_policy "nocolon" = none ∧
    bytesFromHex "zzz" = none ∧
    bytesFromHex "q" = none ∧
    (api_upload ⟨some "p1", some "patient"⟩ (some ⟨"r", [9]⟩) (some "nocolon")
       (some "zzz") (some "q") (fun _ => none) (fun _ => none)).1 =
      UploadResult.uploaded "r" ∧
    (api_upload ⟨some "p1", some "patient"⟩ (some ⟨"r", [9]⟩) (some "nocolon")
       (some "zzz") (some "q") (fun _ => none) (fun _ => none)).2.2 "r.json" =
      some { owner := "p1", file := "r.enc", policy := "nocolon", key_blob := some "zzz",
             iv := some "q", mode := some "client_side_encryption",
             revoked_users := [] } ∧
    (api_upload ⟨some "p1", some "patient"⟩ (some ⟨"r", [9]⟩) (some "nocolon")
       (some "zzz") (some "q") (fun _ => none) (fun _ => none)).2.1 "r.enc" =
      some [9] := by
  refine ⟨by decide, by decide, by decide, by decide, by decide, by decide⟩

/-- C9 (amended): the upload endpoint validates only presence — a missing
or empty `key_blob` or `iv` (or a missing file or policy field) is
rejected with 400 and nothing is stored — and performs no grammar or hex
validation: any present policy, key and nonce strings are accepted and
stored verbatim, with the blob saved byte-identical. -/
theorem upload_validation_amended :
    (∀ (sess : Session) (uid : String) (fs : FileStorage) (policy kb iv : String)
       (dataStore : String → Option (List Nat)) (metaStore : String → Option Meta),
      sess.role = some "patient" → sess.user_id = some uid → kb ≠ "" → iv ≠ "" →
      (api_upload sess (some fs) (some policy) (some kb) (some iv) dataStore
          metaStore).1 =
        UploadResult.uploaded (pyReplace (pyReplace fs.filename ".enc" "") ".json" "") ∧
      (api_upload sess (some fs) (some policy) (some kb) (some iv) dataStore
          metaStore).2.2 (uploadMetaName fs.filename) =
        some (uploadMeta uid policy kb iv fs.filename) ∧
      (api_upload sess (some fs) (some policy) (some kb) (some iv) dataStore
          metaStore).2.1 (encName fs.filename) = some fs.content) ∧
    (∀ (sess : Session) (fs : FileStorage) (p : String) (kb iv : Option String)
       (dataStore : String → Option (List Nat)) (metaStore : String → Option Meta),
      (kb = none ∨ kb = some "" ∨ iv = none ∨ iv = some "") →
      sess.role = some "patient" →
      (api_upload sess (some fs) (some p) kb iv dataStore metaStore).1 =
        UploadResult.err "Missing encryption parameters (key_blob or iv)" 400 ∧
      (api_upload sess (some fs) (some p) kb iv dataStore metaStore).2.1 = dataStore ∧
      (api_upload sess (some fs) (some p) kb iv dataStore metaStore).2.2 = metaStore) := by
  constructor
  · intro sess uid fs policy kb iv dataStore metaStore hrole huid hkb hiv
    unfold api_upload store_encrypted_phr
    simp only [hrole, huid, hkb, hiv, ne_eq, not_true_eq_false, if_false, ite_false,
      false_or, or_false, not_false_eq_true, if_true, ite_true]
    refine ⟨?_, ?_, ?_⟩ <;> simp
  · intro sess fs p kb iv dataStore metaStore hbad hrole
    rcases hbad with rfl | rfl | rfl | rfl
    · cases iv <;> simp [api_upload, hrole]
    · cases iv <;> simp [api_upload, hrole]
    · cases kb <;> simp [api_upload, hrole]
    · cases kb <;> simp [api_upload, hrole]

/-- Witness for the amended C9: a concrete accepted upload with an
unparseable policy, and a concrete rejected upload with an empty key
blob. -/
theorem upload_validation_amended_witness :
    ((api_upload ⟨some "p2", some "patient"⟩ (some ⟨"s.enc", [1]⟩) (some "junk policy")
        (some "zz") (some "q") (fun _ => none) (fun _ => none)).1 =
      UploadResult.uploaded (pyReplace (pyReplace "s.enc" ".enc" "") ".json" "") ∧
     (api_upload ⟨some "p2", some "patient"⟩ (some ⟨"s.enc", [1]⟩) (some "junk policy")
        (some "zz") (some "q") (fun _ => none) (fun _ => none)).2.2
          (uploadMetaName "s.enc") =
       some (uploadMeta "p2" "junk policy" "zz" "q" "s.enc") ∧
     (api_upload ⟨some "p2", some "patient"⟩ (some ⟨"s.enc", [1]⟩) (some "junk policy")
        (some "zz") (some "q") (fun _ => none) (fun _ => none)).2.1 (encName "s.enc") =
       some [1]) ∧
    (api_upload ⟨some "p2", some "patient"⟩ (some ⟨"t", [2]⟩) (some "Role:Doctor")
        (some "") (some "q") (fun _ => none) (fun _ => none)).1 =
      UploadResult.err "Missing encryption parameters (key_blob or iv)" 400 := by
  constructor
  · exact upload_validation_amended.1 ⟨some "p2", some "patient"⟩ "p2" ⟨"s.enc", [1]⟩
      "junk policy" "zz" "q" (fun _ => none) (fun _ => none) rfl rfl (by decide) (by decide)
  · exact (upload_validation_amended.2 ⟨some "p2", some "patient"⟩ ⟨"t", [2]⟩
      "Role:Doctor" (some "") (some "q") (fun _ => none) (fun _ => none)
      (Or.inr (Or.inl rfl)) rfl).1

end SeSPHR
